import Mathlib

/-!
Shallow embedding of the SuperCourier mini ETL pipeline
(src/de-code-snippet.py) in Lean 4, for checking the natural-language
specification against the code.

Modelling conventions:
  * Python floats are modelled as exact rationals (ℚ); every numeric
    literal of the source appears as the corresponding rational.
  * Python dicts with string keys are association lists; `d[k]` (which
    raises `KeyError` on a miss) is `dictGet`, returning `Except`;
    `d.get(k, default)` is `List.lookup` followed by `Option.getD`.
  * Code that may raise returns `Except String α`; a caught exception is
    a `match` on the `Except` value.
  * The filesystem slot at OUTPUT_PATH is `FS := Option DataFrame`
    (`none` = no file at the path, `some df` = a file holding `df`).
  * Randomness (the per-row uniform Distance draws, the Gaussian draw
    for the actual delivery time) is passed in explicitly as data.
-/

/-- A parsed pickup timestamp, exposing exactly the accessors the source
uses: `strftime('%Y-%m-%d')` (the date part), `.hour`, and
`dt.day_name()` (the full English weekday name). -/
structure Timestamp where
  date : String
  hour : Nat
  weekday : String
deriving DecidableEq, Repr

/-- One row of the `deliveries` table (source lines 41-49). -/
structure DeliveryRecord where
  delivery_id : Int
  pickup_datetime : Timestamp
  package_type : String
  delivery_zone : String
  recipient_id : Int
deriving DecidableEq, Repr

/-- The weather data: date string to (hour string to condition)
(source lines 110-127, loaded back at line 160). -/
def WeatherTable : Type := List (String × List (String × String))

/-- One row of the enriched DataFrame, after `enrich_with_weather`
(source lines 168-215): renamed columns, `recipient_id` dropped,
derived `Hour`, `Weekday`, `Weather_Condition`, `Distance`.
`Weather_Condition` is `none` when the weather lookup missed (pandas
stores a null). -/
structure Row where
  Delivery_ID : Int
  Pickup_DateTime : Timestamp
  Package_Type : String
  Delivery_Zone : String
  Weather_Condition : Option String
  Hour : String
  Weekday : String
  Distance : ℚ
deriving DecidableEq, Repr

/-- Python `d[k]` on a dict: the value, or a raised `KeyError`. -/
def dictGet (d : List (String × ℚ)) (k : String) : Except String ℚ :=
  match d.lookup k with
  | some v => Except.ok v
  | none => Except.error ("KeyError: " ++ k)

/-- Python `int(s)`: the parsed integer, or a raised `ValueError`. -/
def pyInt (s : String) : Except String Int :=
  match s.toInt? with
  | some n => Except.ok n
  | none => Except.error ("ValueError: invalid literal for int: " ++ s)

/-- Package-type multipliers (source lines 223-229). -/
def coeffs_package_type : List (String × ℚ) :=
  [("Small", 1.0), ("Medium", 1.2), ("Large", 1.5), ("X-Large", 2.0),
   ("Special", 2.5)]

/-- Delivery-zone multipliers (source lines 231-237). -/
def coeffs_zone : List (String × ℚ) :=
  [("Urban", 1.2), ("Suburban", 1.0), ("Rural", 1.3), ("Industrial", 0.9),
   ("Shopping Center", 1.4)]

/-- Weather multipliers (source lines 239-247). -/
def coeffs_weather : List (String × ℚ) :=
  [("Sunny", 1.0), ("Cloudy", 1.05), ("Rainy", 1.2), ("Windy", 1.1),
   ("Snowy", 1.8), ("Foggy", 1.3), ("Unknown", 1.0)]

/-- Time-of-day factor (source lines 258-262): morning peak 7-10 gives
1.3, evening peak 16-19 gives 1.4, otherwise no change. -/
def timeFactor (hour : Int) : ℚ :=
  if 7 ≤ hour ∧ hour < 10 then 1.3
  else if 16 ≤ hour ∧ hour < 19 then 1.4
  else 1

/-- Day-of-week factor (source lines 264-269): weekdays 1.2,
weekend 0.9, anything else unchanged. -/
def dayFactor (weekday : String) : ℚ :=
  if weekday ∈ ["Monday", "Tuesday", "Wednesday", "Thursday", "Friday"]
    then 1.2
  else if weekday ∈ ["Saturday", "Sunday"] then 0.9
  else 1

/-- Weather factor (source line 272):
`coeffs_weather.get(row.get('Weather_Condition', 'Unknown'), 1.0)`.
A null (`none`) condition is pandas NaN, which is not a key of the dict,
so `.get` returns the default 1.0; an unrecognized string likewise. -/
def weatherFactor (w : Option String) : ℚ :=
  match w with
  | none => 1.0
  | some s => (coeffs_weather.lookup s).getD 1.0

/-- `calculate_ajusted_theoretical_time` (source lines 218-275).
The package and zone lookups use raising subscripts `coeffs[...]`;
`int(row['Hour'])` can raise `ValueError`; only the weather lookup uses
`.get` with a default. A raised exception propagates out of every
remaining step, hence the nested matches. -/
def calculate_ajusted_theoretical_time (row : Row) : Except String ℚ :=
  let base_theorical_time : ℚ := 30 + row.Distance * 0.8
  match dictGet coeffs_package_type row.Package_Type with
  | Except.error e => Except.error e
  | Except.ok pf =>
    let t1 := base_theorical_time * pf
    match dictGet coeffs_zone row.Delivery_Zone with
    | Except.error e => Except.error e
    | Except.ok zf =>
      let t2 := t1 * zf
      match pyInt row.Hour with
      | Except.error e => Except.error e
      | Except.ok hour =>
        Except.ok (t2 * timeFactor hour * dayFactor row.Weekday *
          weatherFactor row.Weather_Condition)

/-- `Delay_threshold` derivation (source line 293): 1.2 times the
ajusted theoretical time. -/
def delay_threshold_of (t : ℚ) : ℚ := t * 1.2

/-- Round-half-to-even to an integer, the tie-breaking rule of Python
`round` and NumPy `round`. -/
def roundHalfEven (q : ℚ) : Int :=
  let f := ⌊q⌋
  let r := q - f
  if r < 1 / 2 then f
  else if 1 / 2 < r then f + 1
  else if f % 2 = 0 then f else f + 1

/-- Python `round(x, 1)`. -/
def pyRound1 (q : ℚ) : ℚ := (roundHalfEven (q * 10) : ℚ) / 10

/-- Python / NumPy `round(x, 2)`. -/
def pyRound2 (q : ℚ) : ℚ := (roundHalfEven (q * 100) : ℚ) / 100

/-- `Actual_Delivery_Time` from a Gaussian draw `d` (source lines
297-299): `round(max(10, d), 1)`; the draw itself is an input. -/
def actual_delivery_time (d : ℚ) : ℚ := pyRound1 (max 10 d)

/-- The inner `get_weather` closure of `enrich_with_weather` (source
lines 182-189): `weather_data[date_str][hour_str]`, with a `KeyError`
at either level caught and turned into `None`. -/
def get_weather (weather_data : WeatherTable) (ts : Timestamp) :
    Option String :=
  match weather_data.lookup ts.date with
  | none => none
  | some hours => hours.lookup (toString ts.hour)

/-- The per-record content of `enrich_with_weather` (source lines
179-213): canonical renames, `recipient_id` dropped, derived `Hour`
(string of the hour), `Weekday` (day name), joined `Weather_Condition`,
and the injected uniform `Distance` draw rounded to 2 decimals. -/
def enrichRow (weather_data : WeatherTable) (rec : DeliveryRecord)
    (d : ℚ) : Row :=
  { Delivery_ID := rec.delivery_id
    Pickup_DateTime := rec.pickup_datetime
    Package_Type := rec.package_type
    Delivery_Zone := rec.delivery_zone
    Weather_Condition := get_weather weather_data rec.pickup_datetime
    Hour := toString rec.pickup_datetime.hour
    Weekday := rec.pickup_datetime.weekday
    Distance := pyRound2 d }

/-- `enrich_with_weather` (source lines 168-215). All operations are
column-wise on the DataFrame, so the result is the row-by-row image of
the input; `distances` is the vector of uniform draws
`np.random.uniform(5, 100, size=len(df))` (source line 212). -/
def enrich_with_weather (df : List DeliveryRecord)
    (weather_data : WeatherTable) (distances : List ℚ) : List Row :=
  df.zipWith (enrichRow weather_data) distances

/-- A pandas DataFrame, as the validator and the sink see it: an
ordered association of column name to column values, a cell being
`none` when null. -/
def DataFrame : Type := List (String × List (Option String))

/-- `df.columns`. -/
def columnsOf (df : DataFrame) : List String := df.map Prod.fst

/-- `df[c]`: the values of column `c` (empty if absent; the validator
only reads columns it has checked to be present). -/
def colOf (df : DataFrame) (c : String) : List (Option String) :=
  (df.lookup c).getD []

/-- `validation_dataframe` (source lines 319-333): raise `ValueError`
if any required column is missing, then raise `ValueError` if the
required columns contain any null, else return normally. -/
def validation_dataframe (df : DataFrame) (required_columns : List String) :
    Except String Unit :=
  let missing_columns :=
    required_columns.filter (fun c => ¬ c ∈ columnsOf df)
  if missing_columns ≠ [] then
    Except.error ("Missing columns: " ++ toString missing_columns)
  else if required_columns.any (fun c => (colOf df c).any (fun x => x.isNone))
    then Except.error "The dataframe contains null values"
  else Except.ok ()

/-- The state of the path OUTPUT_PATH on disk: `none` when no file
exists, `some df` when a file holding `df` does. -/
def FS : Type := Option DataFrame

/-- Source lines 350-352: `if os.path.exists(OUTPUT_PATH): os.remove`. -/
def delete_if_exists (fs : FS) : FS := if fs.isSome then none else fs

/-- Source line 355: `df.to_csv(OUTPUT_PATH, index=False)`. -/
def write_csv (df : DataFrame) (_fs : FS) : FS := some df

/-- The required-column list of `save_results` (source lines 344-345),
identical to the output column order of `transform_data` (lines
310-311). -/
def expected_columns : List String :=
  ["Delivery_ID", "Pickup_DateTime", "Weekday", "Hour", "Package_Type",
   "Distance", "Delivery_Zone", "Weather_Condition",
   "Actual_Delivery_Time", "Status"]

/-- `save_results` (source lines 336-360): validate, and only on
success delete any existing file and write the new one; any exception
is caught and converted to the return value `False`, leaving the file
state as it was. -/
def save_results (df : DataFrame) (fs : FS) : Bool × FS :=
  match validation_dataframe df expected_columns with
  | Except.error _ => (false, fs)
  | Except.ok _ => (true, write_csv df (delete_if_exists fs))

/-- `run_pipeline` (source lines 363-388). The effectful stages
(database creation, weather generation, extraction, transformation) are
passed in as their outcomes: each is the value the call would produce,
or the exception it would raise. An exception from any of them is
caught by the driver's `try/except` and yields `False`; the boolean
returned by `save_results` (line 381) is discarded, after which the
driver returns `True`. -/
def run_pipeline (create_db : Except String Bool)
    (gen_weather : Except String WeatherTable)
    (extract : Except String (List DeliveryRecord))
    (transform : List DeliveryRecord → WeatherTable → Except String DataFrame)
    (fs : FS) : Bool × FS :=
  match create_db with
  | Except.error _ => (false, fs)
  | Except.ok _ =>
    match gen_weather with
    | Except.error _ => (false, fs)
    | Except.ok weather_data =>
      match extract with
      | Except.error _ => (false, fs)
      | Except.ok df_deliveries =>
        match transform df_deliveries weather_data with
        | Except.error _ => (false, fs)
        | Except.ok df_transformed =>
          let saved := save_results df_transformed fs
          (true, saved.snd)

/-! Concrete inputs used by the witness and counterexample theorems. -/

/-- The pickup timestamp of the spec's worked scenario: a Monday at
hour 8. -/
def tsC3 : Timestamp := { date := "2025-05-12", hour := 8, weekday := "Monday" }

/-- The enriched row of the spec's worked scenario: Small / Urban /
Distance 50.00 / Hour "8" / Monday / Sunny. -/
def rowC3 : Row :=
  { Delivery_ID := 1
    Pickup_DateTime := tsC3
    Package_Type := "Small"
    Delivery_Zone := "Urban"
    Weather_Condition := some "Sunny"
    Hour := "8"
    Weekday := "Monday"
    Distance := 50 }

/-- The scenario row with an unrecognized package type. -/
def rowBadPkg : Row := { rowC3 with Package_Type := "Frozen" }

/-- A fully populated single-row DataFrame with the 10 required
columns. -/
def dfGood : DataFrame := expected_columns.map (fun c => (c, [some "x"]))

/-- A single-row DataFrame with the 10 required columns where
`Weather_Condition` holds a null. -/
def dfNull : DataFrame :=
  expected_columns.map
    (fun c => (c, [if c == "Weather_Condition" then none else some "x"]))

/-- A two-day weather table used by the enrichment witnesses. -/
def wdEx : WeatherTable := [("2025-05-12", [("8", "Sunny"), ("9", "Rainy")])]

/-- Two delivery records used by the enrichment witness. -/
def recEx1 : DeliveryRecord :=
  { delivery_id := 1, pickup_datetime := tsC3, package_type := "Small",
    delivery_zone := "Urban", recipient_id := 42 }

/-- Second delivery record, one day after the weather table ends. -/
def recEx2 : DeliveryRecord :=
  { delivery_id := 2,
    pickup_datetime := { date := "2025-05-13", hour := 8, weekday := "Tuesday" },
    package_type := "Large", delivery_zone := "Rural", recipient_id := 7 }

/-- The scenario row with a larger distance, other fields unchanged. -/
def rowC5hi : Row := { rowC3 with Distance := 60 }

/-- The scenario row with a different delivery id and pickup timestamp
but the same six estimator-relevant fields. -/
def rowC6 : Row :=
  { rowC3 with
    Delivery_ID := 2
    Pickup_DateTime := { date := "2025-05-12", hour := 9, weekday := "Monday" } }

/-- Distance draws for the enrichment witness. -/
def dsEx : List ℚ := [50, 60]

/-! Helper lemmas. -/

/-- The integer rounding never exceeds an integer bound that bounds its
argument. -/
lemma roundHalfEven_le_of_le (q : ℚ) (n : Int) (h : q ≤ n) :
    roundHalfEven q ≤ n := by
  have hf : ⌊q⌋ ≤ n := by
    have := Int.floor_le_floor h
    simpa using this
  unfold roundHalfEven
  dsimp only
  split_ifs with h1 h2 h3
  · exact hf
  · have hq : (⌊q⌋ : ℚ) + 1 / 2 < q := by linarith
    have : (⌊q⌋ : ℚ) < n := by linarith [h]
    have : ⌊q⌋ < n := by exact_mod_cast this
    omega
  · exact hf
  · have hq : (⌊q⌋ : ℚ) + 1 / 2 ≤ q := by
      have h1' : ¬ (q - ⌊q⌋ < 1 / 2) := h1
      push_neg at h1'
      linarith
    have : (⌊q⌋ : ℚ) < n := by linarith [h]
    have : ⌊q⌋ < n := by exact_mod_cast this
    omega

/-- The integer rounding never drops below an integer bound that its
argument dominates. -/
lemma le_roundHalfEven_of_le (q : ℚ) (n : Int) (h : (n : ℚ) ≤ q) :
    n ≤ roundHalfEven q := by
  have hf : n ≤ ⌊q⌋ := Int.le_floor.mpr h
  unfold roundHalfEven
  dsimp only
  split_ifs <;> omega

/-! Claim theorems. -/

/-- Claim C3: on the spec's worked scenario row (Small, Urban,
Distance 50.00, Hour "8", Monday, Sunny) the estimator returns exactly
131.04, and the derived Delay_threshold is exactly 157.248. -/
theorem C3_scenario_exact :
    calculate_ajusted_theoretical_time rowC3 = Except.ok 131.04 ∧
    Except.map delay_threshold_of (calculate_ajusted_theoretical_time rowC3) =
      Except.ok 157.248 := by
  constructor
  · with_unfolding_all rfl
  · with_unfolding_all rfl

/-- Claim C4: for every Gaussian draw `d`, the code's
`round(max(10, d), 1)` coincides with the spec's `max(10, round(d, 1))`,
and in particular the actual delivery time is at least 10. -/
theorem C4_actual_time_floor (d : ℚ) :
    actual_delivery_time d = max 10 (pyRound1 d) ∧
    10 ≤ actual_delivery_time d := by
  rcases le_total d 10 with hle | hge
  · have h1 : max (10 : ℚ) d = 10 := max_eq_left hle
    have hr10 : pyRound1 (10 : ℚ) = 10 := by with_unfolding_all rfl
    have h2 : pyRound1 d ≤ 10 := by
      have hb : d * 10 ≤ (100 : Int) := by push_cast; linarith
      have := roundHalfEven_le_of_le (d * 10) 100 hb
      have hc : (roundHalfEven (d * 10) : ℚ) ≤ 100 := by exact_mod_cast this
      unfold pyRound1
      linarith
    unfold actual_delivery_time
    rw [h1, hr10]
    exact ⟨(max_eq_left h2).symm, le_refl 10⟩
  · have h1 : max (10 : ℚ) d = d := max_eq_right hge
    have h2 : 10 ≤ pyRound1 d := by
      have hb : ((100 : Int) : ℚ) ≤ d * 10 := by push_cast; linarith
      have := le_roundHalfEven_of_le (d * 10) 100 hb
      have hc : (100 : ℚ) ≤ (roundHalfEven (d * 10) : ℚ) := by exact_mod_cast this
      unfold pyRound1
      linarith
    unfold actual_delivery_time
    rw [h1]
    exact ⟨(max_eq_right h2).symm, h2⟩

/-- A successful chain of lookups determines the estimator's value. -/
lemma calc_eq_of_lookups (r : Row) (pf zf : ℚ) (hour : Int)
    (hp : coeffs_package_type.lookup r.Package_Type = some pf)
    (hz : coeffs_zone.lookup r.Delivery_Zone = some zf)
    (hh : r.Hour.toInt? = some hour) :
    calculate_ajusted_theoretical_time r =
      Except.ok ((30 + r.Distance * 0.8) * pf * zf * timeFactor hour *
        dayFactor r.Weekday * weatherFactor r.Weather_Condition) := by
  simp only [calculate_ajusted_theoretical_time, dictGet, pyInt, hp, hz, hh]

/-- A returned value of the estimator comes from a successful chain of
lookups. -/
lemma calc_ok_inversion (r : Row) (v : ℚ)
    (h : calculate_ajusted_theoretical_time r = Except.ok v) :
    ∃ pf zf hour, coeffs_package_type.lookup r.Package_Type = some pf ∧
      coeffs_zone.lookup r.Delivery_Zone = some zf ∧
      r.Hour.toInt? = some hour ∧
      v = (30 + r.Distance * 0.8) * pf * zf * timeFactor hour *
        dayFactor r.Weekday * weatherFactor r.Weather_Condition := by
  rcases hp : coeffs_package_type.lookup r.Package_Type with _ | pf
  · simp only [calculate_ajusted_theoretical_time, dictGet, pyInt, hp] at h
    exact Except.noConfusion h
  · rcases hz : coeffs_zone.lookup r.Delivery_Zone with _ | zf
    · simp only [calculate_ajusted_theoretical_time, dictGet, pyInt, hp, hz] at h
      exact Except.noConfusion h
    · rcases hh : r.Hour.toInt? with _ | hour
      · simp only [calculate_ajusted_theoretical_time, dictGet, pyInt,
          hp, hz, hh] at h
        exact Except.noConfusion h
      · simp only [calculate_ajusted_theoretical_time, dictGet, pyInt,
          hp, hz, hh, Except.ok.injEq] at h
        exact ⟨pf, zf, hour, rfl, rfl, rfl, h.symm⟩

/-- Claim C1 counterexample: a run in which database creation, weather
generation, extraction and transformation all succeed but the produced
table fails validation, so the save stage fails (`save_results` returns
`False` and writes nothing), yet `run_pipeline` still returns `True`. -/
theorem C1_cex_save_failure_ignored :
    run_pipeline (Except.ok true) (Except.ok []) (Except.ok [])
      (fun _ _ => Except.ok []) none = (true, none) ∧
    (save_results [] none).fst = false := by
  constructor
  · with_unfolding_all rfl
  · with_unfolding_all rfl

/-- Claim C1 (amended): `run_pipeline` never raises and returns `True`
exactly when database creation, weather generation, extraction and
transformation all complete without raising; an exception from any of
those stages is caught and yields `False`. A failing save cannot make it
`False`: `save_results` converts its own failures into the return value
`False`, which `run_pipeline` discards. -/
theorem C1_run_pipeline_boolean (c : Except String Bool)
    (g : Except String WeatherTable) (e : Except String (List DeliveryRecord))
    (t : List DeliveryRecord → WeatherTable → Except String DataFrame)
    (fs : FS) :
    (run_pipeline c g e t fs).fst = true ↔
      ∃ b wd raw df, c = Except.ok b ∧ g = Except.ok wd ∧
        e = Except.ok raw ∧ t raw wd = Except.ok df := by
  cases c with
  | error msg => simp [run_pipeline]
  | ok b =>
    cases g with
    | error msg => simp [run_pipeline]
    | ok wd =>
      cases e with
      | error msg => simp [run_pipeline]
      | ok raw =>
        cases ht : t raw wd with
        | error msg => simp [run_pipeline, ht]
        | ok df => simp [run_pipeline, ht]

/-- Claim C2 counterexample: an unrecognized `Package_Type` makes the
estimator raise a `KeyError` (the package and zone lookups use the
raising subscript, not `.get`), so the claim that every categorical
lookup degrades gracefully is false. -/
theorem C2_cex_unknown_package_raises :
    calculate_ajusted_theoretical_time rowBadPkg =
      Except.error "KeyError: Frozen" := by
  with_unfolding_all rfl

/-- Claim C2 (amended): when `Package_Type` and `Delivery_Zone` are
recognized categories and `Hour` parses as an integer, the estimator
returns a value without raising, whatever string (or null) the
`Weather_Condition` field holds: the weather lookup alone degrades
gracefully, a null weather resolving to factor 1.0 and an unrecognized
weather string likewise. -/
theorem C2_weather_lookup_total (r : Row)
    (hp : (coeffs_package_type.lookup r.Package_Type).isSome)
    (hz : (coeffs_zone.lookup r.Delivery_Zone).isSome)
    (hh : r.Hour.toInt?.isSome) :
    (∃ v, calculate_ajusted_theoretical_time r = Except.ok v) ∧
    weatherFactor none = 1 ∧
    (∀ w, coeffs_weather.lookup w = none → weatherFactor (some w) = 1) := by
  refine ⟨?_, by with_unfolding_all rfl, ?_⟩
  · rcases Option.isSome_iff_exists.mp hp with ⟨pf, hp'⟩
    rcases Option.isSome_iff_exists.mp hz with ⟨zf, hz'⟩
    rcases Option.isSome_iff_exists.mp hh with ⟨hour, hh'⟩
    exact ⟨_, calc_eq_of_lookups r pf zf hour hp' hz' hh'⟩
  · intro w hw
    simp only [weatherFactor, hw, Option.getD]
    norm_num

/-- Claim C2 witness: the scenario row satisfies the amended claim's
hypotheses, and an unrecognized weather string resolves to factor 1. -/
theorem C2_witness_concrete :
    (calculate_ajusted_theoretical_time rowC3).isOk = true ∧
    weatherFactor none = 1 ∧ weatherFactor (some "Hailstorm") = 1 := by
  have H := C2_weather_lookup_total rowC3 (by with_unfolding_all rfl)
    (by with_unfolding_all rfl) (by with_unfolding_all rfl)
  refine ⟨?_, H.2.1, H.2.2 "Hailstorm" (by with_unfolding_all rfl)⟩
  rcases H.1 with ⟨v, hv⟩
  rw [hv]
  rfl

/-- A lookup in an association list all of whose values are positive
returns a positive value. -/
lemma lookup_pos_of_all (l : List (String × ℚ)) (hl : ∀ p ∈ l, 0 < p.2)
    {s : String} {v : ℚ} (h : l.lookup s = some v) : 0 < v := by
  induction l with
  | nil => simp [List.lookup] at h
  | cons kv t ih =>
    obtain ⟨k, w⟩ := kv
    simp only [List.lookup] at h
    split at h
    · injection h with h2
      subst h2
      exact hl (k, w) (List.mem_cons_self _ _)
    · exact ih (fun p hp => hl p (List.mem_cons_of_mem _ hp)) h

/-- Every package multiplier is positive. -/
lemma package_lookup_pos {s : String} {v : ℚ}
    (h : coeffs_package_type.lookup s = some v) : 0 < v := by
  refine lookup_pos_of_all _ ?_ h
  intro p hp
  simp only [coeffs_package_type, List.mem_cons, List.mem_singleton,
    List.not_mem_nil, or_false] at hp
  rcases hp with rfl | rfl | rfl | rfl | rfl <;> norm_num

/-- Every zone multiplier is positive. -/
lemma zone_lookup_pos {s : String} {v : ℚ}
    (h : coeffs_zone.lookup s = some v) : 0 < v := by
  refine lookup_pos_of_all _ ?_ h
  intro p hp
  simp only [coeffs_zone, List.mem_cons, List.mem_singleton,
    List.not_mem_nil, or_false] at hp
  rcases hp with rfl | rfl | rfl | rfl | rfl <;> norm_num

/-- Every weather multiplier is positive. -/
lemma weather_lookup_pos {s : String} {v : ℚ}
    (h : coeffs_weather.lookup s = some v) : 0 < v := by
  refine lookup_pos_of_all _ ?_ h
  intro p hp
  simp only [coeffs_weather, List.mem_cons, List.mem_singleton,
    List.not_mem_nil, or_false] at hp
  rcases hp with rfl | rfl | rfl | rfl | rfl | rfl | rfl <;> norm_num

/-- The time-of-day factor is positive. -/
lemma timeFactor_pos (hour : Int) : 0 < timeFactor hour := by
  unfold timeFactor
  split_ifs <;> norm_num

/-- The day-of-week factor is positive. -/
lemma dayFactor_pos (weekday : String) : 0 < dayFactor weekday := by
  unfold dayFactor
  split_ifs <;> norm_num

/-- The weather factor is positive. -/
lemma weatherFactor_pos (w : Option String) : 0 < weatherFactor w := by
  cases w with
  | none => norm_num [weatherFactor]
  | some s =>
    simp only [weatherFactor]
    cases hws : coeffs_weather.lookup s with
    | none => norm_num
    | some v => simpa using weather_lookup_pos hws

/-- Claim C5: with the five categorical fields fixed, the estimator is
strictly increasing in Distance: a row with strictly greater Distance
gets a strictly greater ajusted theoretical time. -/
theorem C5_distance_strict_mono (r1 r2 : Row) (v1 v2 : ℚ)
    (hp : r1.Package_Type = r2.Package_Type)
    (hz : r1.Delivery_Zone = r2.Delivery_Zone)
    (hh : r1.Hour = r2.Hour)
    (hwk : r1.Weekday = r2.Weekday)
    (hw : r1.Weather_Condition = r2.Weather_Condition)
    (hd : r2.Distance < r1.Distance)
    (h1 : calculate_ajusted_theoretical_time r1 = Except.ok v1)
    (h2 : calculate_ajusted_theoretical_time r2 = Except.ok v2) :
    v2 < v1 := by
  obtain ⟨pf1, zf1, hr1, hp1, hz1, hh1, hv1⟩ := calc_ok_inversion r1 v1 h1
  obtain ⟨pf2, zf2, hr2, hp2, hz2, hh2, hv2⟩ := calc_ok_inversion r2 v2 h2
  rw [hp] at hp1
  rw [hz] at hz1
  rw [hh] at hh1
  rw [hp1] at hp2
  rw [hz1] at hz2
  rw [hh1] at hh2
  obtain rfl : pf1 = pf2 := Option.some.inj hp2
  obtain rfl : zf1 = zf2 := Option.some.inj hz2
  obtain rfl : hr1 = hr2 := Option.some.inj hh2
  have hM : 0 < pf1 * zf1 * timeFactor hr1 * dayFactor r2.Weekday *
      weatherFactor r2.Weather_Condition :=
    mul_pos (mul_pos (mul_pos (mul_pos (package_lookup_pos hp1)
      (zone_lookup_pos hz1)) (timeFactor_pos hr1))
      (dayFactor_pos r2.Weekday)) (weatherFactor_pos r2.Weather_Condition)
  have hbase : 30 + r2.Distance * 0.8 < 30 + r1.Distance * 0.8 := by
    have h08 : (0 : ℚ) < 0.8 := by norm_num
    nlinarith
  calc v2 = (30 + r2.Distance * 0.8) * (pf1 * zf1 * timeFactor hr1 *
        dayFactor r2.Weekday * weatherFactor r2.Weather_Condition) := by
        rw [hv2]; ring
    _ < (30 + r1.Distance * 0.8) * (pf1 * zf1 * timeFactor hr1 *
        dayFactor r2.Weekday * weatherFactor r2.Weather_Condition) :=
        mul_lt_mul_of_pos_right hbase hM
    _ = v1 := by rw [hv1, hwk, hw]; ring

/-- Claim C5 witness: raising the scenario row's Distance from 50 to 60
raises the estimate from 131.04 to 146.016. -/
theorem C5_witness_concrete : (131.04 : ℚ) < 146.016 :=
  C5_distance_strict_mono rowC5hi rowC3 146.016 131.04 rfl rfl rfl rfl rfl
    (by show (50 : ℚ) < 60; norm_num)
    (by with_unfolding_all rfl) (by with_unfolding_all rfl)

/-- Claim C6: two rows that agree on Package_Type, Delivery_Zone, Hour,
Weekday, Weather_Condition and Distance (their Delivery_ID and
Pickup_DateTime may differ) get the same ajusted theoretical time and
the same Delay_threshold: both outputs are deterministic functions of
those six fields. -/
theorem C6_deterministic_outputs (r1 r2 : Row)
    (hp : r1.Package_Type = r2.Package_Type)
    (hz : r1.Delivery_Zone = r2.Delivery_Zone)
    (hh : r1.Hour = r2.Hour)
    (hwk : r1.Weekday = r2.Weekday)
    (hw : r1.Weather_Condition = r2.Weather_Condition)
    (hd : r1.Distance = r2.Distance) :
    calculate_ajusted_theoretical_time r1 =
      calculate_ajusted_theoretical_time r2 ∧
    Except.map delay_threshold_of (calculate_ajusted_theoretical_time r1) =
      Except.map delay_threshold_of (calculate_ajusted_theoretical_time r2) := by
  obtain ⟨id1, ts1, p1, z1, w1, h1, wk1, d1⟩ := r1
  obtain ⟨id2, ts2, p2, z2, w2, h2, wk2, d2⟩ := r2
  dsimp only at hp hz hh hwk hw hd
  subst hp hz hh hwk hw hd
  exact ⟨rfl, rfl⟩

/-- Claim C6 witness: the scenario row and its copy with a different
delivery id and pickup timestamp get identical outputs. -/
theorem C6_witness_concrete :
    calculate_ajusted_theoretical_time rowC3 =
      calculate_ajusted_theoretical_time rowC6 ∧
    Except.map delay_threshold_of (calculate_ajusted_theoretical_time rowC3) =
      Except.map delay_threshold_of (calculate_ajusted_theoretical_time rowC6) :=
  C6_deterministic_outputs rowC3 rowC6 rfl rfl rfl rfl rfl rfl

/-- Claim C7: the validator accepts exactly the tables in which every
required column is present and null-free (so it raises if and only if
some required column is absent or contains a null), and a table that
passes validation is then saved. -/
theorem C7_validator_iff (df : DataFrame) (required : List String) (fs : FS) :
    (validation_dataframe df required = Except.ok () ↔
      ∀ c ∈ required, c ∈ columnsOf df ∧ ∀ x ∈ colOf df c, x.isSome) ∧
    (validation_dataframe df expected_columns = Except.ok () →
      (save_results df fs).fst = true) := by
  constructor
  · unfold validation_dataframe
    dsimp only
    split_ifs with h1 h2
    · refine iff_of_false (by simp) (fun hall => h1 ?_)
      rw [List.filter_eq_nil_iff]
      intro c hc
      simpa using (hall c hc).1
    · refine iff_of_false (by simp) (fun hall => ?_)
      rw [List.any_eq_true] at h2
      obtain ⟨c, hc, hcol⟩ := h2
      rw [List.any_eq_true] at hcol
      obtain ⟨x, hx, hnone⟩ := hcol
      have hsome := (hall c hc).2 x hx
      cases x <;> simp_all
    · refine iff_of_true rfl ?_
      intro c hc
      constructor
      · have hm : required.filter (fun c => ¬ c ∈ columnsOf df) = [] :=
          not_ne_iff.mp h1
        have := List.filter_eq_nil_iff.mp hm c hc
        simpa using this
      · intro x hx
        have hc2 : ¬ ((colOf df c).any (fun x => x.isNone) = true) :=
          fun hcontra => h2 (List.any_eq_true.mpr ⟨c, hc, hcontra⟩)
        have hx2 : ¬ (x.isNone = true) :=
          fun hisnone => hc2 (List.any_eq_true.mpr ⟨x, hx, hisnone⟩)
        cases x <;> simp_all
  · intro hok
    simp [save_results, hok]

/-- Claim C7 witness: the fully populated ten-column table passes
validation and its save proceeds. -/
theorem C7_witness_concrete :
    validation_dataframe dfGood expected_columns = Except.ok () ∧
    (save_results dfGood none).fst = true := by
  have H := C7_validator_iff dfGood expected_columns none
  have hok : validation_dataframe dfGood expected_columns = Except.ok () := by
    with_unfolding_all rfl
  exact ⟨hok, H.2 hok⟩

/-- Claim C10: when validation fails inside `save_results`, the sink is
untouched (a pre-existing file at the output path survives as it was)
and `save_results` returns failure instead of raising. -/
theorem C10_failed_validation_keeps_sink (df : DataFrame) (fs : FS)
    (h : ∃ e, validation_dataframe df expected_columns = Except.error e) :
    save_results df fs = (false, fs) := by
  obtain ⟨e, he⟩ := h
  simp [save_results, he]

/-- Claim C10 witness: a table with a null in `Weather_Condition`
fails validation and the pre-existing file survives. -/
theorem C10_witness_concrete :
    save_results dfNull (some dfGood) = (false, some dfGood) :=
  C10_failed_validation_keeps_sink dfNull (some dfGood)
    ⟨"The dataframe contains null values", by with_unfolding_all rfl⟩

/-- Claim C8: when the pickup date or hour key is absent from the
weather table, enrichment stores a null `Weather_Condition` without
raising, the estimator's weather multiplier for a null condition is 1.0
(the Unknown factor), and a null weather never changes whether the
estimator raises. -/
theorem C8_weather_miss_graceful (wd : WeatherTable) (ts : Timestamp)
    (hmiss : wd.lookup ts.date = none ∨
      ∃ hrs, wd.lookup ts.date = some hrs ∧
        hrs.lookup (toString ts.hour) = none) :
    get_weather wd ts = none ∧
    (∀ (rec : DeliveryRecord) (d : ℚ), rec.pickup_datetime = ts →
      (enrichRow wd rec d).Weather_Condition = none) ∧
    weatherFactor none = 1 ∧
    (∀ r : Row, (calculate_ajusted_theoretical_time
        { r with Weather_Condition := none }).isOk =
      (calculate_ajusted_theoretical_time r).isOk) := by
  have hgw : get_weather wd ts = none := by
    rcases hmiss with h | ⟨hrs, h1, h2⟩
    · simp [get_weather, h]
    · simp [get_weather, h1, h2]
  refine ⟨hgw, ?_, by with_unfolding_all rfl, ?_⟩
  · intro rec d hrec
    simp [enrichRow, hrec, hgw]
  · intro r
    obtain ⟨id, ts2, p, z, w, hr, wk, d⟩ := r
    simp only [calculate_ajusted_theoretical_time]
    rcases hp : dictGet coeffs_package_type p with e | pf
    · simp [hp]
    · rcases hz : dictGet coeffs_zone z with e | zf
      · simp [hp, hz]
      · rcases hh : pyInt hr with e | hour
        · simp [hp, hz, hh]
        · simp [hp, hz, hh, Except.isOk, Except.toBool]

/-- Claim C8 witness: the record whose pickup date is one day past the
end of the weather table gets a null `Weather_Condition`, the null
resolves to multiplier 1, and nulling the scenario row's weather leaves
the estimator succeeding. -/
theorem C8_witness_concrete :
    get_weather wdEx recEx2.pickup_datetime = none ∧
    (enrichRow wdEx recEx2 60).Weather_Condition = none ∧
    weatherFactor none = 1 ∧
    (calculate_ajusted_theoretical_time
        { rowC3 with Weather_Condition := none }).isOk =
      (calculate_ajusted_theoretical_time rowC3).isOk := by
  have H := C8_weather_miss_graceful wdEx recEx2.pickup_datetime
    (Or.inl (by with_unfolding_all rfl))
  exact ⟨H.1, H.2.1 recEx2 60 rfl, H.2.2.1, H.2.2.2 rowC3⟩

/-- Claim C9: the enricher returns one output row per input row, in the
same order, each derived from the input record at the same position
(and the distance draw at that position). -/
theorem C9_enrich_same_order (df : List DeliveryRecord) (wd : WeatherTable)
    (ds : List ℚ) (h : ds.length = df.length) :
    (enrich_with_weather df wd ds).length = df.length ∧
    ∀ (i : Nat) (hi : i < df.length) (hi2 : i < ds.length),
      (enrich_with_weather df wd ds)[i]? =
        some (enrichRow wd (df.get ⟨i, hi⟩) (ds.get ⟨i, hi2⟩)) := by
  constructor
  · rw [enrich_with_weather, List.length_zipWith, h, min_self]
  · intro i hi hi2
    rw [enrich_with_weather, List.getElem?_zipWith']
    rw [List.getElem?_eq_getElem hi, List.getElem?_eq_getElem hi2]
    simp [List.get_eq_getElem]

/-- Claim C9 witness: enriching two concrete records with two distance
draws keeps length two and derives position 0 from record 0. -/
theorem C9_witness_concrete :
    (enrich_with_weather [recEx1, recEx2] wdEx dsEx).length = 2 ∧
    (enrich_with_weather [recEx1, recEx2] wdEx dsEx)[0]? =
      some (enrichRow wdEx recEx1 50) := by
  have H := C9_enrich_same_order [recEx1, recEx2] wdEx dsEx rfl
  exact ⟨H.1, H.2 0 (by norm_num) (by norm_num [dsEx])⟩
